import Mathlib

/-
  Verification of the jssdk ticket-server coordinator (mp/jssdk/ticket_server.go).

  The Go code is shallowly embedded: the effectful pieces (the network fetch
  performed by coreClient.GetJSON, the channel handoff between RefreshTicket
  and ticketUpdateDaemon, the cache guarded by an RWMutex) are made explicit
  as function arguments and returned state.  A `FetchOutcome` value stands for
  the result of one GetJSON round trip; `updateTicket` is a pure function of
  the cache value read at entry, the `currentTicket` argument and that fetch
  outcome, returning the values the Go function returns together with the
  cache value it leaves behind and a flag recording whether the network was
  touched.  One iteration of the daemon's select loop is `daemonStep`; a
  serialized run over a queue of intents is `daemonRun`, mirroring the single
  goroutine that owns both channels.
-/

namespace Jssdk

/-- The cached credential: ticket string plus (buffered) expiry in seconds,
mirroring the Go struct `jsapiTicket` with fields `Ticket` and `ExpiresIn`. -/
structure jsapiTicket where
  Ticket : String
  ExpiresIn : Int
  deriving DecidableEq, Repr

/-- The zero value of `jsapiTicket`, used as the empty sentinel
(`var zeroJsapiTicket jsapiTicket` in the source). -/
def zeroJsapiTicket : jsapiTicket := { Ticket := "", ExpiresIn := 0 }

/-- Result of one `coreClient.GetJSON` round trip on the getticket endpoint:
either a transport/decoding failure, or a decoded body carrying the issuer
error code and message (embedded `core.Error`) and the ticket fields. -/
inductive FetchOutcome where
  | transportError (msg : String)
  | response (errCode : Int) (errMsg : String) (tkt : jsapiTicket)
  deriving DecidableEq, Repr

/-- The issuer error code meaning success (`core.ErrCodeOK = 0`). -/
def ErrCodeOK : Int := 0

/-- The errors `updateTicket` can return: the GetJSON transport error, the
issuer-reported `*core.Error`, or a validation error built with
`errors.New`. -/
inductive UpdateError where
  | transport (msg : String)
  | issuer (errCode : Int) (errMsg : String)
  | validation (msg : String)
  deriving DecidableEq, Repr

/-- The message text carried by an `UpdateError`. -/
def UpdateError.message : UpdateError → String
  | .transport m => m
  | .issuer _ m => m
  | .validation m => m

/-- Everything one call of the Go `updateTicket` produces: its three return
values `(ticket, cached, err)`, the cache content after the call, and whether
`GetJSON` was invoked on this path. -/
structure UpdateResult where
  ticket : jsapiTicket
  cached : Bool
  err : Option UpdateError
  newCache : jsapiTicket
  fetched : Bool
  deriving DecidableEq, Repr

/-- Shallow embedding of `(srv *DefaultTicketServer) updateTicket`.
`cacheVal` is the value `srv.ticketCache.getTicket()` returns at entry,
`fetch` the outcome of the single `GetJSON` call on the non-short-circuit
path.  The branch structure and constants follow the source line by line. -/
def updateTicket (cacheVal : jsapiTicket) (currentTicket : String)
    (fetch : FetchOutcome) : UpdateResult :=
  if currentTicket ≠ "" ∧ cacheVal.Ticket ≠ "" ∧ currentTicket ≠ cacheVal.Ticket then
    { ticket := cacheVal, cached := true, err := none,
      newCache := cacheVal, fetched := false }
  else
    match fetch with
    | .transportError msg =>
        { ticket := cacheVal, cached := false, err := some (.transport msg),
          newCache := zeroJsapiTicket, fetched := true }
    | .response errCode errMsg tkt =>
        if errCode ≠ ErrCodeOK then
          { ticket := cacheVal, cached := false,
            err := some (.issuer errCode errMsg),
            newCache := zeroJsapiTicket, fetched := true }
        else if tkt.ExpiresIn > 31556952 then
          { ticket := cacheVal, cached := false,
            err := some (.validation ("expires_in too large: " ++ toString tkt.ExpiresIn)),
            newCache := zeroJsapiTicket, fetched := true }
        else if tkt.ExpiresIn > 60 * 60 then
          let t : jsapiTicket := { tkt with ExpiresIn := tkt.ExpiresIn - 60 * 10 }
          { ticket := t, cached := false, err := none, newCache := t, fetched := true }
        else if tkt.ExpiresIn > 60 * 30 then
          let t : jsapiTicket := { tkt with ExpiresIn := tkt.ExpiresIn - 60 * 5 }
          { ticket := t, cached := false, err := none, newCache := t, fetched := true }
        else if tkt.ExpiresIn > 60 * 5 then
          let t : jsapiTicket := { tkt with ExpiresIn := tkt.ExpiresIn - 60 }
          { ticket := t, cached := false, err := none, newCache := t, fetched := true }
        else if tkt.ExpiresIn > 60 then
          let t : jsapiTicket := { tkt with ExpiresIn := tkt.ExpiresIn - 10 }
          { ticket := t, cached := false, err := none, newCache := t, fetched := true }
        else
          { ticket := cacheVal, cached := false,
            err := some (.validation ("expires_in too small: " ++ toString tkt.ExpiresIn)),
            newCache := zeroJsapiTicket, fetched := true }

/-- The reply value sent on `refreshTicketResponseChan`
(Go struct `refreshTicketResult`); an error reply leaves the `ticket`
field at its zero value `""`. -/
structure refreshTicketResult where
  ticket : String
  err : Option UpdateError
  deriving DecidableEq, Repr

/-- The source's `abs` helper on durations, stated on seconds. -/
def abs (x : Int) : Int := if x ≥ 0 then x else -x

/-- One input event of the daemon's select loop: a request arriving on
`refreshTicketRequestChan` (carrying `currentTicket`), or a ticker firing. -/
inductive Intent where
  | request (currentTicket : String)
  | tick
  deriving DecidableEq, Repr

/-- The daemon-owned state: the current ticking period `tickDuration`
(in seconds) and the credential cache content. -/
structure DaemonState where
  tickDuration : Int
  cache : jsapiTicket
  deriving DecidableEq, Repr

/-- What one iteration of the daemon loop produces: the new state, the reply
sent back on the response channel (none for ticker firings), whether the
ticker was stopped and restarted at a new period (`goto NEW_TICK_DURATION`),
and whether the network was touched. -/
structure StepResult where
  state : DaemonState
  reply : Option refreshTicketResult
  restarted : Bool
  fetched : Bool
  deriving DecidableEq, Repr

/-- One iteration of `ticketUpdateDaemon`'s select loop, parameterised by the
event that fired and the outcome of the fetch (if one takes place). -/
def daemonStep (s : DaemonState) (intent : Intent) (fetch : FetchOutcome) :
    StepResult :=
  match intent with
  | .request currentTicket =>
      let r := updateTicket s.cache currentTicket fetch
      match r.err with
      | some e =>
          { state := { s with cache := r.newCache },
            reply := some { ticket := "", err := some e },
            restarted := false, fetched := r.fetched }
      | none =>
          if r.cached then
            { state := { s with cache := r.newCache },
              reply := some { ticket := r.ticket.Ticket, err := none },
              restarted := false, fetched := r.fetched }
          else
            { state := { tickDuration := r.ticket.ExpiresIn, cache := r.newCache },
              reply := some { ticket := r.ticket.Ticket, err := none },
              restarted := true, fetched := r.fetched }
  | .tick =>
      let r := updateTicket s.cache "" fetch
      match r.err with
      | some _ =>
          { state := { s with cache := r.newCache },
            reply := none, restarted := false, fetched := r.fetched }
      | none =>
          if Jssdk.abs (s.tickDuration - r.ticket.ExpiresIn) > 2 then
            { state := { tickDuration := r.ticket.ExpiresIn, cache := r.newCache },
              reply := none, restarted := true, fetched := r.fetched }
          else
            { state := { s with cache := r.newCache },
              reply := none, restarted := false, fetched := r.fetched }

/-- `RefreshTicket(currentTicket)`: sends the intent to the daemon and blocks
for the reply; in the serialized model this is one daemon step on a request
intent. -/
def RefreshTicket (s : DaemonState) (currentTicket : String)
    (fetch : FetchOutcome) : StepResult :=
  daemonStep s (.request currentTicket) fetch

/-- `Ticket()`: reads the cache; a non-empty ticket string is returned
immediately (no coordination, no fetch), otherwise the call delegates to
`RefreshTicket("")`. -/
def Ticket (s : DaemonState) (fetch : FetchOutcome) : StepResult :=
  if s.cache.Ticket ≠ "" then
    { state := s, reply := some { ticket := s.cache.Ticket, err := none },
      restarted := false, fetched := false }
  else
    RefreshTicket s "" fetch

/-- Serialized processing of a queue of intents, each paired with the fetch
outcome the issuer would give if that intent reaches the network: the daemon
handles them strictly one at a time, threading its state. -/
def daemonRun (s : DaemonState) :
    List (Intent × FetchOutcome) → DaemonState × List StepResult
  | [] => (s, [])
  | (i, f) :: rest =>
      let r := daemonStep s i f
      let p := daemonRun r.state rest
      (p.1, r :: p.2)

/-- How many steps of a run touched the network. -/
def fetchCount (rs : List StepResult) : Nat := (rs.filter (·.fetched)).length

/-- Outcome of one row of the expiry buffer table. -/
inductive BufferOutcome where
  | buffered (v : Int)
  | fatalSmall
  | fatalLarge
  deriving DecidableEq, Repr

/-- One row of the buffer table: a guard on the raw value and the outcome the
row produces from it. -/
structure BufferRow where
  cond : Int → Bool
  out : Int → BufferOutcome

/-- First-match-wins evaluation of a row list on a raw value. -/
def evalRows : List BufferRow → Int → Option BufferOutcome
  | [], _ => none
  | row :: rest, n => if row.cond n then some (row.out n) else evalRows rest n

/-- The buffer table with its rows in the order the spec lists them:
`> 3600`, `1800–3600`, `300–1800`, `60–300`, `≤ 60` (fatal small),
`> 31556952` (fatal large).  This follows the spec's words, for comparison
with the code's evaluation order. -/
def specListedRows : List BufferRow :=
  [ ⟨fun n => n > 3600, fun n => .buffered (n - 600)⟩,
    ⟨fun n => 1800 < n && n ≤ 3600, fun n => .buffered (n - 300)⟩,
    ⟨fun n => 300 < n && n ≤ 1800, fun n => .buffered (n - 60)⟩,
    ⟨fun n => 60 < n && n ≤ 300, fun n => .buffered (n - 10)⟩,
    ⟨fun n => n ≤ 60, fun _ => .fatalSmall⟩,
    ⟨fun n => n > 31556952, fun _ => .fatalLarge⟩ ]

/-- The buffer table in the order the code's switch actually evaluates its
cases: the `> 31556952` guard first, then the four subtraction rows, then
the catch-all `default` ("too small"). -/
def codeRows : List BufferRow :=
  [ ⟨fun n => n > 31556952, fun _ => .fatalLarge⟩,
    ⟨fun n => n > 60 * 60, fun n => .buffered (n - 60 * 10)⟩,
    ⟨fun n => n > 60 * 30, fun n => .buffered (n - 60 * 5)⟩,
    ⟨fun n => n > 60 * 5, fun n => .buffered (n - 60)⟩,
    ⟨fun n => n > 60, fun n => .buffered (n - 10)⟩,
    ⟨fun _ => true, fun _ => .fatalSmall⟩ ]

lemma updateTicket_empty_fetched (c : jsapiTicket) (f : FetchOutcome) :
    (updateTicket c "" f).fetched = true := by
  cases f <;> simp only [updateTicket] <;> split_ifs <;> simp_all

lemma daemonStep_request_fetched (s : DaemonState) (ct : String)
    (f : FetchOutcome) :
    (daemonStep s (.request ct) f).fetched = (updateTicket s.cache ct f).fetched := by
  simp only [daemonStep]
  cases h : (updateTicket s.cache ct f).err <;> simp [h] <;> split_ifs <;> rfl

/-- C1: `updateTicket` applies the expiry buffer table to the raw
`expires_in` returned by the issuer: raw 3601 stores 3001, 1801 stores 1501,
301 stores 241, 61 stores 51; any raw value not above 60 is a fatal
validation failure whose message begins with "expires_in too small" (the
code appends the offending value), any raw value above 31556952 is a fatal
failure whose message begins with "expires_in too large"; in every fatal
case the empty sentinel is stored and an error is returned. -/
theorem updateTicket_buffer_table_cases (c : jsapiTicket) (t : String) :
    updateTicket c "" (.response ErrCodeOK "" ⟨t, 3601⟩) =
      ⟨⟨t, 3001⟩, false, none, ⟨t, 3001⟩, true⟩ ∧
    updateTicket c "" (.response ErrCodeOK "" ⟨t, 1801⟩) =
      ⟨⟨t, 1501⟩, false, none, ⟨t, 1501⟩, true⟩ ∧
    updateTicket c "" (.response ErrCodeOK "" ⟨t, 301⟩) =
      ⟨⟨t, 241⟩, false, none, ⟨t, 241⟩, true⟩ ∧
    updateTicket c "" (.response ErrCodeOK "" ⟨t, 61⟩) =
      ⟨⟨t, 51⟩, false, none, ⟨t, 51⟩, true⟩ ∧
    (∀ n : Int, n ≤ 60 →
      updateTicket c "" (.response ErrCodeOK "" ⟨t, n⟩) =
        ⟨c, false, some (.validation ("expires_in too small: " ++ toString n)),
          zeroJsapiTicket, true⟩) ∧
    (∀ n : Int, n > 31556952 →
      updateTicket c "" (.response ErrCodeOK "" ⟨t, n⟩) =
        ⟨c, false, some (.validation ("expires_in too large: " ++ toString n)),
          zeroJsapiTicket, true⟩) := by
  refine ⟨rfl, rfl, rfl, rfl, fun n hn => ?_, fun n hn => ?_⟩ <;>
    (simp only [updateTicket]; split_ifs <;> first | rfl | omega | simp_all)

theorem updateTicket_buffer_table_cases_witness :
    updateTicket zeroJsapiTicket "TICKET" (.response ErrCodeOK "" ⟨"TICKET", 60⟩) =
      updateTicket zeroJsapiTicket "TICKET" (.response ErrCodeOK "" ⟨"TICKET", 60⟩) ∧
    updateTicket zeroJsapiTicket "" (.response ErrCodeOK "" ⟨"T", 60⟩) =
      ⟨zeroJsapiTicket, false,
        some (.validation ("expires_in too small: " ++ toString (60 : Int))),
        zeroJsapiTicket, true⟩ ∧
    updateTicket zeroJsapiTicket "" (.response ErrCodeOK "" ⟨"T", 31556953⟩) =
      ⟨zeroJsapiTicket, false,
        some (.validation ("expires_in too large: " ++ toString (31556953 : Int))),
        zeroJsapiTicket, true⟩ :=
  ⟨rfl,
   (updateTicket_buffer_table_cases zeroJsapiTicket "T").2.2.2.2.1 60 (by norm_num),
   (updateTicket_buffer_table_cases zeroJsapiTicket "T").2.2.2.2.2 31556953 (by norm_num)⟩

/-- C2: the refresh decision short-circuits exactly when `currentTicket` is
non-empty, the cached ticket is non-empty and the two differ; in that case
the daemon replies with the cached ticket, makes no fetch, and because the
`cached` flag is reported no retune happens; in every other case (in
particular every scheduler firing, whose `currentTicket` is empty) a real
fetch is performed. -/
theorem updateTicket_short_circuit (s : DaemonState) (ct : String)
    (f : FetchOutcome) :
    (ct ≠ "" ∧ s.cache.Ticket ≠ "" ∧ ct ≠ s.cache.Ticket →
      updateTicket s.cache ct f = ⟨s.cache, true, none, s.cache, false⟩ ∧
      daemonStep s (.request ct) f =
        ⟨s, some ⟨s.cache.Ticket, none⟩, false, false⟩) ∧
    (¬(ct ≠ "" ∧ s.cache.Ticket ≠ "" ∧ ct ≠ s.cache.Ticket) →
      (updateTicket s.cache ct f).fetched = true) ∧
    (updateTicket s.cache "" f).fetched = true := by
  refine ⟨fun h => ?_, fun h => ?_, updateTicket_empty_fetched _ _⟩
  · have hu : updateTicket s.cache ct f = ⟨s.cache, true, none, s.cache, false⟩ := by
      simp only [updateTicket]; rw [if_pos h]
    exact ⟨hu, by simp [daemonStep, hu]⟩
  · cases f <;> simp only [updateTicket] <;> rw [if_neg h] <;>
      split_ifs <;> rfl

theorem updateTicket_short_circuit_witness :
    (("B" : String) ≠ "" ∧ ("A" : String) ≠ "" ∧ ("B" : String) ≠ "A") ∧
    daemonStep ⟨6600, ⟨"A", 6600⟩⟩ (.request "B") (.transportError "unused") =
      ⟨⟨6600, ⟨"A", 6600⟩⟩, some ⟨"A", none⟩, false, false⟩ ∧
    ¬(("" : String) ≠ "" ∧ ("A" : String) ≠ "" ∧ ("" : String) ≠ "A") ∧
    (updateTicket ⟨"A", 6600⟩ "" (.transportError "boom")).fetched = true := by
  refine ⟨by decide, ?_, by decide, ?_⟩
  · exact ((updateTicket_short_circuit ⟨6600, ⟨"A", 6600⟩⟩ "B"
      (.transportError "unused")).1 (by decide)).2
  · exact (updateTicket_short_circuit ⟨6600, ⟨"A", 6600⟩⟩ ""
      (.transportError "boom")).2.1 (by decide)

/-- C3: every failed fetch attempt — transport failure, issuer-reported
error, or expiry validation failure — stores the empty sentinel into the
cache before returning the error; consequently a daemon state whose cache is
the sentinel makes the next `Ticket()` call delegate to `RefreshTicket("")`
instead of serving a stale value. -/
theorem updateTicket_failure_clears_cache :
    (∀ (c : jsapiTicket) (ct : String) (f : FetchOutcome),
      (updateTicket c ct f).err ≠ none →
      (updateTicket c ct f).newCache = zeroJsapiTicket) ∧
    (∀ (s : DaemonState) (ct : String) (f : FetchOutcome),
      (updateTicket s.cache ct f).err ≠ none →
      (daemonStep s (.request ct) f).state.cache = zeroJsapiTicket) ∧
    (∀ (s : DaemonState) (f : FetchOutcome),
      s.cache = zeroJsapiTicket → Ticket s f = RefreshTicket s "" f) := by
  have key : ∀ (c : jsapiTicket) (ct : String) (f : FetchOutcome),
      (updateTicket c ct f).err ≠ none →
      (updateTicket c ct f).newCache = zeroJsapiTicket := by
    intro c ct f h
    cases f <;> simp only [updateTicket] at * <;> split_ifs at * <;> simp_all
  refine ⟨key, fun s ct f h => ?_, fun s f hs => ?_⟩
  · have hz := key s.cache ct f h
    simp only [daemonStep]
    cases he : (updateTicket s.cache ct f).err with
    | none => exact absurd he h
    | some e => simpa using hz
  · simp [Ticket, hs, zeroJsapiTicket]

theorem updateTicket_failure_clears_cache_witness :
    (updateTicket ⟨"OLD", 6600⟩ "" (.transportError "boom")).err ≠ none ∧
    (updateTicket ⟨"OLD", 6600⟩ "" (.transportError "boom")).newCache =
      zeroJsapiTicket ∧
    (daemonStep ⟨6600, ⟨"OLD", 6600⟩⟩ (.request "") (.transportError "boom")).state.cache =
      zeroJsapiTicket ∧
    Ticket ⟨6600, zeroJsapiTicket⟩ (.transportError "boom") =
      RefreshTicket ⟨6600, zeroJsapiTicket⟩ "" (.transportError "boom") :=
  ⟨by decide,
   updateTicket_failure_clears_cache.1 ⟨"OLD", 6600⟩ "" (.transportError "boom")
     (by decide),
   updateTicket_failure_clears_cache.2.1 ⟨6600, ⟨"OLD", 6600⟩⟩ ""
     (.transportError "boom") (by decide),
   updateTicket_failure_clears_cache.2.2 ⟨6600, zeroJsapiTicket⟩
     (.transportError "boom") rfl⟩

/-- C4: the daemon's retune policy: a caller intent that resulted in a
successful, non-short-circuited fetch unconditionally resets the period to
the freshly learned buffered `ExpiresIn` (no tolerance check); a scheduler
tick that fetched successfully retunes only when the new value differs from
the current period by more than 2 seconds; failed or short-circuited intents
leave the period unchanged. -/
theorem daemon_retune_policy (s : DaemonState) (ct : String) (f : FetchOutcome) :
    ((updateTicket s.cache ct f).err = none →
      (updateTicket s.cache ct f).cached = false →
      (daemonStep s (.request ct) f).state.tickDuration =
        (updateTicket s.cache ct f).ticket.ExpiresIn ∧
      (daemonStep s (.request ct) f).restarted = true) ∧
    ((updateTicket s.cache "" f).err = none →
      (if Jssdk.abs (s.tickDuration - (updateTicket s.cache "" f).ticket.ExpiresIn) > 2
       then (daemonStep s .tick f).state.tickDuration =
              (updateTicket s.cache "" f).ticket.ExpiresIn ∧
            (daemonStep s .tick f).restarted = true
       else (daemonStep s .tick f).state.tickDuration = s.tickDuration ∧
            (daemonStep s .tick f).restarted = false)) ∧
    ((updateTicket s.cache ct f).err ≠ none ∨
        (updateTicket s.cache ct f).cached = true →
      (daemonStep s (.request ct) f).state.tickDuration = s.tickDuration ∧
      (daemonStep s (.request ct) f).restarted = false) ∧
    ((updateTicket s.cache "" f).err ≠ none →
      (daemonStep s .tick f).state.tickDuration = s.tickDuration ∧
      (daemonStep s .tick f).restarted = false) := by
  refine ⟨fun he hc => ?_, fun he => ?_, fun h => ?_, fun he => ?_⟩
  · cases hx : (updateTicket s.cache ct f).err with
    | some e => simp [hx] at he
    | none => simp [daemonStep, hx, hc]
  · cases hx : (updateTicket s.cache "" f).err with
    | some e => simp [hx] at he
    | none => simp only [daemonStep, hx]; split_ifs <;> simp
  · rcases h with h | h
    · cases hx : (updateTicket s.cache ct f).err with
      | some e => simp [daemonStep, hx]
      | none => exact absurd hx h
    · cases hx : (updateTicket s.cache ct f).err with
      | some e => simp [daemonStep, hx]
      | none => simp [daemonStep, hx, h]
  · cases hx : (updateTicket s.cache "" f).err with
    | some e => simp [daemonStep, hx]
    | none => exact absurd hx he

theorem daemon_retune_policy_witness :
    (updateTicket zeroJsapiTicket "" (.response ErrCodeOK "" ⟨"T", 7200⟩)).err =
      none ∧
    (updateTicket zeroJsapiTicket "" (.response ErrCodeOK "" ⟨"T", 7200⟩)).cached =
      false ∧
    (daemonStep ⟨6601, zeroJsapiTicket⟩ (.request "")
        (.response ErrCodeOK "" ⟨"T", 7200⟩)).state.tickDuration = 6600 ∧
    (daemonStep ⟨6601, zeroJsapiTicket⟩ (.request "")
        (.response ErrCodeOK "" ⟨"T", 7200⟩)).restarted = true := by
  have h := (daemon_retune_policy ⟨6601, zeroJsapiTicket⟩ ""
    (.response ErrCodeOK "" ⟨"T", 7200⟩)).1 (by decide) (by decide)
  exact ⟨by decide, by decide, h.1.trans (by decide), h.2⟩

/-- C5: `Ticket()` returns a non-empty cached ticket immediately with no
coordination and no fetch; on an empty cache it is exactly
`RefreshTicket("")`. -/
theorem Ticket_fast_path (s : DaemonState) (f : FetchOutcome) :
    (s.cache.Ticket ≠ "" →
      Ticket s f = ⟨s, some ⟨s.cache.Ticket, none⟩, false, false⟩) ∧
    (s.cache.Ticket = "" → Ticket s f = RefreshTicket s "" f) := by
  refine ⟨fun h => ?_, fun h => ?_⟩ <;> simp [Ticket, h]

theorem Ticket_fast_path_witness :
    (("T" : String) ≠ "") ∧
    Ticket ⟨6600, ⟨"T", 6600⟩⟩ (.transportError "unused") =
      ⟨⟨6600, ⟨"T", 6600⟩⟩, some ⟨"T", none⟩, false, false⟩ ∧
    Ticket ⟨6600, zeroJsapiTicket⟩ (.transportError "boom") =
      RefreshTicket ⟨6600, zeroJsapiTicket⟩ "" (.transportError "boom") := by
  refine ⟨by decide, ?_, ?_⟩
  · exact (Ticket_fast_path ⟨6600, ⟨"T", 6600⟩⟩ (.transportError "unused")).1
      (by decide)
  · exact (Ticket_fast_path ⟨6600, zeroJsapiTicket⟩ (.transportError "boom")).2 rfl

/-- C8: the fast path never inspects the stored expiry: whenever the cached
ticket string is non-empty, `Ticket()` serves it without a fetch and leaves
the state alone, for every stored `ExpiresIn` value (the expiry is
quantified over all integers, including zero and negative values). -/
theorem Ticket_ignores_expiry (tick : String) (e : Int) (d : Int)
    (f : FetchOutcome) (h : tick ≠ "") :
    (Ticket ⟨d, ⟨tick, e⟩⟩ f).reply = some ⟨tick, none⟩ ∧
    (Ticket ⟨d, ⟨tick, e⟩⟩ f).fetched = false ∧
    (Ticket ⟨d, ⟨tick, e⟩⟩ f).state = ⟨d, ⟨tick, e⟩⟩ := by
  simp [Ticket, h]

theorem Ticket_ignores_expiry_witness :
    (("T" : String) ≠ "") ∧
    (Ticket ⟨6600, ⟨"T", -5⟩⟩ (.transportError "unused")).reply =
      some ⟨"T", none⟩ ∧
    (Ticket ⟨6600, ⟨"T", -5⟩⟩ (.transportError "unused")).fetched = false := by
  have h := Ticket_ignores_expiry "T" (-5) 6600 (.transportError "unused")
    (by decide)
  exact ⟨by decide, h.1, h.2.1⟩

/-- C9: the stale-signal short-circuit path performs no cache write: under
the short-circuit condition the stored credential (ticket string and
`ExpiresIn` alike) is identical before and after the call, and no fetch
happens. -/
theorem updateTicket_short_circuit_frame (c : jsapiTicket) (ct : String)
    (f : FetchOutcome) (h1 : ct ≠ "") (h2 : c.Ticket ≠ "") (h3 : ct ≠ c.Ticket) :
    (updateTicket c ct f).newCache = c ∧ (updateTicket c ct f).fetched = false := by
  simp only [updateTicket]
  rw [if_pos ⟨h1, h2, h3⟩]
  exact ⟨rfl, rfl⟩

theorem updateTicket_short_circuit_frame_witness :
    (("B" : String) ≠ "") ∧ (("A" : String) ≠ "") ∧ (("B" : String) ≠ "A") ∧
    (updateTicket ⟨"A", 6600⟩ "B" (.transportError "unused")).newCache =
      ⟨"A", 6600⟩ ∧
    (updateTicket ⟨"A", 6600⟩ "B" (.transportError "unused")).fetched = false := by
  have h := updateTicket_short_circuit_frame ⟨"A", 6600⟩ "B"
    (.transportError "unused") (by decide) (by decide) (by decide)
  exact ⟨by decide, by decide, by decide, h.1, h.2⟩

/-- C10: after every successful, non-short-circuited `updateTicket`, the
buffered `ExpiresIn` stored in the cache (which is also the value returned
to the daemon) lies in 51..31556352; in particular it is strictly positive,
so the period the daemon derives from it is a positive duration. -/
theorem updateTicket_success_expiry_range (c : jsapiTicket) (ct : String)
    (f : FetchOutcome) (he : (updateTicket c ct f).err = none)
    (hc : (updateTicket c ct f).cached = false) :
    51 ≤ (updateTicket c ct f).newCache.ExpiresIn ∧
    (updateTicket c ct f).newCache.ExpiresIn ≤ 31556352 ∧
    (updateTicket c ct f).ticket = (updateTicket c ct f).newCache ∧
    0 < (updateTicket c ct f).newCache.ExpiresIn := by
  cases f <;> simp only [updateTicket] at * <;> split_ifs at * <;>
    simp_all <;> omega

theorem updateTicket_success_expiry_range_witness :
    (updateTicket zeroJsapiTicket "" (.response ErrCodeOK "" ⟨"T", 7200⟩)).err =
      none ∧
    (updateTicket zeroJsapiTicket "" (.response ErrCodeOK "" ⟨"T", 7200⟩)).cached =
      false ∧
    51 ≤ (updateTicket zeroJsapiTicket ""
      (.response ErrCodeOK "" ⟨"T", 7200⟩)).newCache.ExpiresIn := by
  have h := updateTicket_success_expiry_range zeroJsapiTicket ""
    (.response ErrCodeOK "" ⟨"T", 7200⟩) (by decide) (by decide)
  exact ⟨by decide, by decide, h.1⟩

/-- C6 counterexample: evaluating the spec's table rows in their listed
order ('> 3600' first, '> 31556952' last) with first match winning predicts
that raw 31556953 is buffered to 31556353, but the code's switch checks
`> 31556952` first and fails fatally with "expires_in too large" there,
storing the empty sentinel.  So the outcome is not that of the first
matching row in the listed order. -/
theorem buffer_table_listed_order_refuted :
    evalRows specListedRows 31556953 =
      some (BufferOutcome.buffered 31556353) ∧
    updateTicket zeroJsapiTicket "" (.response ErrCodeOK "" ⟨"T", 31556953⟩) =
      ⟨zeroJsapiTicket, false,
        some (.validation "expires_in too large: 31556953"),
        zeroJsapiTicket, true⟩ := by
  constructor
  · decide
  · decide

/-- C6 amended: the buffer table is evaluated on the raw value with first
match winning, but in the order the code's switch lists its cases — the
`> 31556952` row FIRST, then `> 3600`, `> 1800`, `> 300`, `> 60`, and the
catch-all "too small" default last; `evalRows codeRows` always matches some
row and `updateTicket` realises exactly its outcome. -/
theorem buffer_table_code_order (c : jsapiTicket) (t : String) (n : Int) :
    (∀ v : Int, evalRows codeRows n = some (.buffered v) →
      updateTicket c "" (.response ErrCodeOK "" ⟨t, n⟩) =
        ⟨⟨t, v⟩, false, none, ⟨t, v⟩, true⟩) ∧
    (evalRows codeRows n = some .fatalSmall →
      updateTicket c "" (.response ErrCodeOK "" ⟨t, n⟩) =
        ⟨c, false, some (.validation ("expires_in too small: " ++ toString n)),
          zeroJsapiTicket, true⟩) ∧
    (evalRows codeRows n = some .fatalLarge →
      updateTicket c "" (.response ErrCodeOK "" ⟨t, n⟩) =
        ⟨c, false, some (.validation ("expires_in too large: " ++ toString n)),
          zeroJsapiTicket, true⟩) ∧
    (evalRows codeRows n).isSome = true := by
  have hev : evalRows codeRows n =
      if n > 31556952 then some .fatalLarge
      else if n > 60 * 60 then some (.buffered (n - 60 * 10))
      else if n > 60 * 30 then some (.buffered (n - 60 * 5))
      else if n > 60 * 5 then some (.buffered (n - 60))
      else if n > 60 then some (.buffered (n - 10))
      else some .fatalSmall := by
    simp only [evalRows, codeRows, decide_eq_true_eq, if_true]
  have hup : updateTicket c "" (.response ErrCodeOK "" ⟨t, n⟩) =
      if n > 31556952 then
        ⟨c, false, some (.validation ("expires_in too large: " ++ toString n)),
          zeroJsapiTicket, true⟩
      else if n > 60 * 60 then
        ⟨⟨t, n - 60 * 10⟩, false, none, ⟨t, n - 60 * 10⟩, true⟩
      else if n > 60 * 30 then
        ⟨⟨t, n - 60 * 5⟩, false, none, ⟨t, n - 60 * 5⟩, true⟩
      else if n > 60 * 5 then
        ⟨⟨t, n - 60⟩, false, none, ⟨t, n - 60⟩, true⟩
      else if n > 60 then
        ⟨⟨t, n - 10⟩, false, none, ⟨t, n - 10⟩, true⟩
      else
        ⟨c, false, some (.validation ("expires_in too small: " ++ toString n)),
          zeroJsapiTicket, true⟩ := by
    simp only [updateTicket]
    split_ifs <;> simp_all
  rw [hev, hup]
  refine ⟨fun v hv => ?_, fun hs => ?_, fun hl => ?_, ?_⟩ <;>
    split_ifs at * <;> simp_all

theorem buffer_table_code_order_witness :
    evalRows codeRows 3601 = some (BufferOutcome.buffered 3001) ∧
    updateTicket zeroJsapiTicket "" (.response ErrCodeOK "" ⟨"T", 3601⟩) =
      ⟨⟨"T", 3001⟩, false, none, ⟨"T", 3001⟩, true⟩ :=
  ⟨by decide,
   (buffer_table_code_order zeroJsapiTicket "T" 3601).1 3001 (by decide)⟩

/-- C7 counterexample: two `RefreshTicket("")` intents handled while the
cache starts empty (the serialized model of two concurrent callers) cause
TWO fetches, not one, and the two callers receive the tickets of their own
respective fetches ("T1" and then "T2"), not one shared result. -/
theorem single_flight_refuted :
    fetchCount (daemonRun ⟨8640000, zeroJsapiTicket⟩
      [(.request "", .response ErrCodeOK "" ⟨"T1", 7200⟩),
       (.request "", .response ErrCodeOK "" ⟨"T2", 7200⟩)]).2 = 2 ∧
    ¬ fetchCount (daemonRun ⟨8640000, zeroJsapiTicket⟩
      [(.request "", .response ErrCodeOK "" ⟨"T1", 7200⟩),
       (.request "", .response ErrCodeOK "" ⟨"T2", 7200⟩)]).2 = 1 ∧
    (daemonRun ⟨8640000, zeroJsapiTicket⟩
      [(.request "", .response ErrCodeOK "" ⟨"T1", 7200⟩),
       (.request "", .response ErrCodeOK "" ⟨"T2", 7200⟩)]).2.map
        (fun r => r.reply) =
      [some ⟨"T1", none⟩, some ⟨"T2", none⟩] := by
  refine ⟨by decide, by decide, by decide⟩

/-- C7 amended: intents are handled strictly one at a time by the single
daemon loop, so no two fetches overlap; but N serialized `RefreshTicket("")`
calls each perform their own fetch — for any queue consisting only of
empty-`currentTicket` requests, the number of fetches equals the number of
calls (N), not one. -/
theorem serialized_fetch_per_request (s : DaemonState)
    (l : List (Intent × FetchOutcome))
    (h : ∀ p ∈ l, p.1 = Intent.request "") :
    fetchCount (daemonRun s l).2 = l.length := by
  induction l generalizing s with
  | nil => rfl
  | cons hd tl ih =>
      obtain ⟨i, f⟩ := hd
      have hi : i = Intent.request "" := h ⟨i, f⟩ (List.mem_cons_self _ _)
      subst hi
      have hf : (daemonStep s (.request "") f).fetched = true :=
        (daemonStep_request_fetched s "" f).trans (updateTicket_empty_fetched _ _)
      have htl := ih (daemonStep s (.request "") f).state
        (fun p hp => h p (List.mem_cons_of_mem _ hp))
      simp [daemonRun, fetchCount, List.filter_cons, hf] at htl ⊢
      exact htl

theorem serialized_fetch_per_request_witness :
    (∀ p ∈ [((Intent.request ""), FetchOutcome.response ErrCodeOK "" ⟨"T1", 7200⟩),
            ((Intent.request ""), FetchOutcome.response ErrCodeOK "" ⟨"T2", 7200⟩)],
      p.1 = Intent.request "") ∧
    fetchCount (daemonRun ⟨777600, zeroJsapiTicket⟩
      [(.request "", .response ErrCodeOK "" ⟨"T1", 7200⟩),
       (.request "", .response ErrCodeOK "" ⟨"T2", 7200⟩)]).2 = 2 := by
  constructor
  · intro p hp
    simp only [List.mem_cons, List.not_mem_nil, or_false] at hp
    rcases hp with rfl | rfl <;> rfl
  · exact serialized_fetch_per_request ⟨777600, zeroJsapiTicket⟩ _
      (by intro p hp
          simp only [List.mem_cons, List.not_mem_nil, or_false] at hp
          rcases hp with rfl | rfl <;> rfl)

end Jssdk
